import Mathlib

/-!
Verification of the two HTTP handler variants in this repository.

Variant A is `function_app.py` (persists a row via the SQL output binding);
variant B is `function_app_copy.py` (no persistence).  Python values that a
request can carry are modelled by a small JSON datatype; Python truthiness
and string formatting are modelled explicitly; the randomly generated UUID
of variant A is passed in as a parameter; an uncaught Python exception
(AttributeError on calling .get on a non-dict) is modelled by `Except`.
-/

/-- A JSON value, as produced by parsing the request body.  Numbers are
modelled as integers, which covers every value the claims mention. -/
inductive Json where
  | null : Json
  | bool (b : Bool) : Json
  | num (n : Int) : Json
  | str (s : String) : Json
  | arr (elems : List Json) : Json
  | obj (fields : List (String × Json)) : Json


/-- Python truthiness of a JSON value: None, False, 0, the empty string,
the empty list and the empty dict are falsy, everything else is truthy. -/
def Json.truthy : Json → Bool
  | .null => false
  | .bool b => b
  | .num n => n != 0
  | .str s => s != ""
  | .arr elems => !elems.isEmpty
  | .obj fields => !fields.isEmpty

/-- The single-quote character, used by the Python repr of strings. -/
def squote : String := (Char.ofNat 39).toString

mutual

/-- Python repr of a JSON value (string escaping is not modelled; no string
in this development contains a quote or backslash). -/
def Json.pyRepr : Json → String
  | .null => "None"
  | .bool b => cond b "True" "False"
  | .num n => toString n
  | .str s => squote ++ s ++ squote
  | .arr elems => "[" ++ pyReprList elems ++ "]"
  | .obj fields => "\x7b" ++ pyReprFields fields ++ "\x7d"

/-- Comma-separated reprs of the elements of a JSON array. -/
def pyReprList : List Json → String
  | [] => ""
  | [j] => j.pyRepr
  | j :: js => j.pyRepr ++ ", " ++ pyReprList js

/-- Comma-separated key-value reprs of the fields of a JSON object. -/
def pyReprFields : List (String × Json) → String
  | [] => ""
  | [(k, v)] => squote ++ k ++ squote ++ ": " ++ v.pyRepr
  | (k, v) :: fs => squote ++ k ++ squote ++ ": " ++ v.pyRepr ++ ", " ++ pyReprFields fs

end

/-- Python str of a JSON value, as used by f-string interpolation: identical
to repr except on strings, which are rendered without quotes. -/
def Json.pyStr : Json → String
  | .str s => s
  | .null => "None"
  | .bool b => cond b "True" "False"
  | .num n => toString n
  | .arr elems => "[" ++ pyReprList elems ++ "]"
  | .obj fields => "\x7b" ++ pyReprFields fields ++ "\x7d"

/-- An inbound HTTP request: the query parameters (`req.params`, a mapping
from strings to strings) and the outcome of `req.get_json()` on the body:
`none` when parsing raises ValueError (missing or malformed body), `some j`
when the body parses to the JSON value `j`. -/
structure HttpRequest where
  params : List (String × String)
  body : Option Json


/-- An outbound HTTP response: a body string and a status code
(`func.HttpResponse` defaults the status to 200). -/
structure HttpResponse where
  body : String
  status : Nat


/-- The row handed to the SQL output binding by variant A.  The title field
holds whatever Python value was resolved as the name, so it is a `Json`. -/
structure ToDoRecord where
  Id : String
  title : Json
  completed : Bool
  url : String


/-- Python truthiness of an optional value (`if name:` where name may be
None): absent is falsy, present defers to the value. -/
def pyTruthy : Option Json → Bool
  | none => false
  | some j => j.truthy

namespace FunctionApp

/-- From function_app.py: `try: req_body = req.get_json() except ValueError:
req_body = \x7b\x7d` — a parse failure is replaced by the empty dict. -/
def getJsonOr (req : HttpRequest) : Json :=
  match req.body with
  | some j => j
  | none => .obj []

/-- The name-resolution steps of function_app.py, lines 19 to 25: take the
query parameter; if falsy, overwrite it with `req_body.get("name")`.
Calling `.get` on a non-dict value raises AttributeError, modelled as
`.error ()`. -/
def resolveName (req : HttpRequest) : Except Unit (Option Json) :=
  let name := (List.lookup "name" req.params).map Json.str
  if pyTruthy name then
    .ok name
  else
    match getJsonOr req with
    | .obj fields => .ok (List.lookup "name" fields)
    | _ => .error ()

/-- The name variant A acts on: the outcome of resolution with falsy values
collapsed to `none`, matching the final `if name:` test. -/
def resolvedName (req : HttpRequest) : Except Unit (Option Json) :=
  (resolveName req).map (fun n => if pyTruthy n then n else none)

/-- The greeting body of variant A for a resolved name. -/
def helloBody (s : String) : String :=
  "Hello, " ++ s ++ ". This HTTP triggered function executed successfully and was saved to SQL."

/-- The 400 body of variant A when no name was resolved. -/
def pleaseBody : String :=
  "Please pass a name in the query string or in the request body."

/-- The handler of function_app.py.  `uuid` is the string form of the
freshly generated UUID (`str(uuid.uuid4())`), passed in explicitly.  The
result pairs the HTTP response with the record handed to `toDoItems.set`,
if any; `.error ()` is an uncaught exception. -/
def HttpExample (uuid : String) (req : HttpRequest) :
    Except Unit (HttpResponse × Option ToDoRecord) :=
  match resolveName req with
  | .error e => .error e
  | .ok name =>
    match name with
    | some v =>
      if v.truthy then
        .ok (⟨helloBody v.pyStr, 200⟩, some ⟨uuid, v, false, ""⟩)
      else
        .ok (⟨pleaseBody, 400⟩, none)
    | none => .ok (⟨pleaseBody, 400⟩, none)

end FunctionApp

namespace FunctionAppCopy

/-- The name-resolution steps of function_app_copy.py, lines 18 to 25: take
the query parameter; if falsy, try to parse the body — on ValueError `pass`
leaves the name as it was, otherwise the name is overwritten with
`req_body.get("name")` (AttributeError on a non-dict, modelled as
`.error ()`). -/
def resolveName (req : HttpRequest) : Except Unit (Option Json) :=
  let name := (List.lookup "name" req.params).map Json.str
  if pyTruthy name then
    .ok name
  else
    match req.body with
    | none => .ok name
    | some (.obj fields) => .ok (List.lookup "name" fields)
    | some _ => .error ()

/-- The name variant B acts on: the outcome of resolution with falsy values
collapsed to `none`, matching the final `if name:` test. -/
def resolvedName (req : HttpRequest) : Except Unit (Option Json) :=
  (resolveName req).map (fun n => if pyTruthy n then n else none)

/-- The greeting body of variant B for a resolved name. -/
def helloBody (s : String) : String :=
  "Hello, " ++ s ++ ". This HTTP triggered function executed successfully."

/-- The 200 prompt body of variant B when no name was resolved. -/
def promptBody : String :=
  "This HTTP triggered function executed successfully. Pass a name in the query string or in the request body for a personalized response."

/-- The handler of function_app_copy.py: no output binding, status 200 on
both branches; `.error ()` is an uncaught exception. -/
def HttpExample (req : HttpRequest) : Except Unit HttpResponse :=
  match resolveName req with
  | .error e => .error e
  | .ok name =>
    match name with
    | some v =>
      if v.truthy then
        .ok ⟨helloBody v.pyStr, 200⟩
      else
        .ok ⟨promptBody, 200⟩
    | none => .ok ⟨promptBody, 200⟩

end FunctionAppCopy

/-- The name a body contributes according to the spec wording: the `name`
field of the JSON-parsed body if parsing succeeds and that value is
non-empty, otherwise no name. -/
def specBodyName (req : HttpRequest) : Option Json :=
  match req.body with
  | some (.obj fields) =>
    match List.lookup "name" fields with
    | some v => if v.truthy then some v else none
    | none => none
  | _ => none

/-- The resolved name according to the spec wording: the query parameter
`name` if present and non-empty, otherwise the body contribution; an empty
string counts the same as absent in either place. -/
def specResolvedName (req : HttpRequest) : Option Json :=
  match List.lookup "name" req.params with
  | some s => if s != "" then some (.str s) else specBodyName req
  | none => specBodyName req

theorem resolveNameA_spec (req : HttpRequest) (v : Option Json)
    (h : FunctionApp.resolveName req = .ok v) :
    (if pyTruthy v then v else none) = specResolvedName req := by
  rcases req with ⟨params, body⟩
  rcases hq : List.lookup "name" params with _ | s
  · rcases hb : body with _ | j
    · have hr : FunctionApp.resolveName ⟨params, body⟩ = .ok none := by
        simp [FunctionApp.resolveName, FunctionApp.getJsonOr, hq, hb, pyTruthy]
      rw [hr] at h
      injection h with h
      subst h
      simp [specResolvedName, specBodyName, hq, hb, pyTruthy]
    · rcases j with _ | b | n | s2 | elems | fields <;>
        first
        | (have hr : FunctionApp.resolveName ⟨params, body⟩ = .error () := by
             simp [FunctionApp.resolveName, FunctionApp.getJsonOr, hq, hb, pyTruthy]
           rw [hr] at h
           simp at h)
        | (have hr : FunctionApp.resolveName ⟨params, body⟩ =
               .ok (List.lookup "name" fields) := by
             simp [FunctionApp.resolveName, FunctionApp.getJsonOr, hq, hb, pyTruthy]
           rw [hr] at h
           injection h with h
           subst h
           rcases hl : List.lookup "name" fields with _ | w <;>
             simp [specResolvedName, specBodyName, hq, hb, hl, pyTruthy])
  · by_cases hs : s = ""
    · subst hs
      rcases hb : body with _ | j
      · have hr : FunctionApp.resolveName ⟨params, body⟩ = .ok none := by
          simp [FunctionApp.resolveName, FunctionApp.getJsonOr, hq, hb, pyTruthy,
            Json.truthy]
        rw [hr] at h
        injection h with h
        subst h
        simp [specResolvedName, specBodyName, hq, hb, pyTruthy]
      · rcases j with _ | b | n | s2 | elems | fields <;>
          first
          | (have hr : FunctionApp.resolveName ⟨params, body⟩ = .error () := by
               simp [FunctionApp.resolveName, FunctionApp.getJsonOr, hq, hb,
                 pyTruthy, Json.truthy]
             rw [hr] at h
             simp at h)
          | (have hr : FunctionApp.resolveName ⟨params, body⟩ =
                 .ok (List.lookup "name" fields) := by
               simp [FunctionApp.resolveName, FunctionApp.getJsonOr, hq, hb,
                 pyTruthy, Json.truthy]
             rw [hr] at h
             injection h with h
             subst h
             rcases hl : List.lookup "name" fields with _ | w <;>
               simp [specResolvedName, specBodyName, hq, hb, hl, pyTruthy])
    · have hr : FunctionApp.resolveName ⟨params, body⟩ = .ok (some (.str s)) := by
        simp [FunctionApp.resolveName, hq, pyTruthy, Json.truthy, hs]
      rw [hr] at h
      injection h with h
      subst h
      simp [specResolvedName, hq, hs, pyTruthy, Json.truthy]

theorem resolveNameB_spec (req : HttpRequest) (v : Option Json)
    (h : FunctionAppCopy.resolveName req = .ok v) :
    (if pyTruthy v then v else none) = specResolvedName req := by
  rcases req with ⟨params, body⟩
  rcases hq : List.lookup "name" params with _ | s
  · rcases hb : body with _ | j
    · have hr : FunctionAppCopy.resolveName ⟨params, body⟩ = .ok none := by
        simp [FunctionAppCopy.resolveName, hq, hb, pyTruthy]
      rw [hr] at h
      injection h with h
      subst h
      simp [specResolvedName, specBodyName, hq, hb, pyTruthy]
    · rcases j with _ | b | n | s2 | elems | fields <;>
        first
        | (have hr : FunctionAppCopy.resolveName ⟨params, body⟩ = .error () := by
             simp [FunctionAppCopy.resolveName, hq, hb, pyTruthy]
           rw [hr] at h
           simp at h)
        | (have hr : FunctionAppCopy.resolveName ⟨params, body⟩ =
               .ok (List.lookup "name" fields) := by
             simp [FunctionAppCopy.resolveName, hq, hb, pyTruthy]
           rw [hr] at h
           injection h with h
           subst h
           rcases hl : List.lookup "name" fields with _ | w <;>
             simp [specResolvedName, specBodyName, hq, hb, hl, pyTruthy])
  · by_cases hs : s = ""
    · subst hs
      rcases hb : body with _ | j
      · have hr : FunctionAppCopy.resolveName ⟨params, body⟩ =
            .ok (some (.str "")) := by
          simp [FunctionAppCopy.resolveName, hq, hb, pyTruthy, Json.truthy]
        rw [hr] at h
        injection h with h
        subst h
        simp [specResolvedName, specBodyName, hq, hb, pyTruthy, Json.truthy]
      · rcases j with _ | b | n | s2 | elems | fields <;>
          first
          | (have hr : FunctionAppCopy.resolveName ⟨params, body⟩ = .error () := by
               simp [FunctionAppCopy.resolveName, hq, hb, pyTruthy, Json.truthy]
             rw [hr] at h
             simp at h)
          | (have hr : FunctionAppCopy.resolveName ⟨params, body⟩ =
                 .ok (List.lookup "name" fields) := by
               simp [FunctionAppCopy.resolveName, hq, hb, pyTruthy, Json.truthy]
             rw [hr] at h
             injection h with h
             subst h
             rcases hl : List.lookup "name" fields with _ | w <;>
               simp [specResolvedName, specBodyName, hq, hb, hl, pyTruthy])
    · have hr : FunctionAppCopy.resolveName ⟨params, body⟩ = .ok (some (.str s)) := by
        simp [FunctionAppCopy.resolveName, hq, pyTruthy, Json.truthy, hs]
      rw [hr] at h
      injection h with h
      subst h
      simp [specResolvedName, hq, hs, pyTruthy, Json.truthy]

theorem FunctionApp.HttpExample_ok_some (uuid : String) (req : HttpRequest)
    (resp : HttpResponse) (r : ToDoRecord)
    (h : FunctionApp.HttpExample uuid req = .ok (resp, some r)) :
    ∃ n, FunctionApp.resolveName req = .ok (some n) ∧ n.truthy = true ∧
      resp = ⟨FunctionApp.helloBody n.pyStr, 200⟩ ∧ r = ⟨uuid, n, false, ""⟩ := by
  unfold FunctionApp.HttpExample at h
  cases hr : FunctionApp.resolveName req with
  | error e =>
    rw [hr] at h
    simp at h
  | ok name =>
    rw [hr] at h
    cases name with
    | none => simp at h
    | some n =>
      by_cases ht : n.truthy = true
      · simp [ht] at h
        obtain ⟨h1, h2⟩ := h
        exact ⟨n, rfl, ht, h1.symm, h2.symm⟩
      · simp [ht] at h

/-- C1: for every request whose query parameters contain a non-empty `name`
with value X, variant A returns status 200 with the hello-and-saved-to-SQL
body for X and hands exactly one record, whose title is X, to the SQL
sink. -/
theorem C1_query_name_saved (uuid X : String) (req : HttpRequest)
    (hq : List.lookup "name" req.params = some X) (hX : X ≠ "") :
    FunctionApp.HttpExample uuid req =
      .ok (⟨FunctionApp.helloBody X, 200⟩, some ⟨uuid, .str X, false, ""⟩) := by
  have hr : FunctionApp.resolveName req = .ok (some (.str X)) := by
    unfold FunctionApp.resolveName
    simp [hq, pyTruthy, Json.truthy, hX]
  unfold FunctionApp.HttpExample
  rw [hr]
  simp [Json.truthy, hX, Json.pyStr]

/-- Witness for C1 at the concrete request `?name=World`. -/
theorem C1_query_name_saved_witness :
    FunctionApp.HttpExample "id-1" ⟨[("name", "World")], none⟩ =
      .ok (⟨FunctionApp.helloBody "World", 200⟩,
        some ⟨"id-1", .str "World", false, ""⟩) :=
  C1_query_name_saved "id-1" "World" ⟨[("name", "World")], none⟩ (by simp)
    (by decide)

/-- C2: whenever either variant completes name resolution without raising,
the name it acts on (falsy values collapsed to none by the final truthiness
test) is the query parameter `name` if present and non-empty, otherwise the
non-empty `name` field of the parsed body, otherwise none — with an empty
string in either place treated the same as absent. -/
theorem C2_resolution_order (req : HttpRequest) :
    (∀ v, FunctionApp.resolveName req = .ok v →
        (if pyTruthy v then v else none) = specResolvedName req) ∧
    (∀ v, FunctionAppCopy.resolveName req = .ok v →
        (if pyTruthy v then v else none) = specResolvedName req) :=
  ⟨fun v h => resolveNameA_spec req v h,
   fun v h => resolveNameB_spec req v h⟩

/-- Witness for C2: an empty query `name` together with body name `Ada`
resolves to `Ada` in both variants. -/
theorem C2_resolution_order_witness :
    ((if pyTruthy (some (.str "Ada")) then some (Json.str "Ada") else none) =
      specResolvedName ⟨[("name", "")], some (.obj [("name", .str "Ada")])⟩) ∧
    ((if pyTruthy (some (.str "Ada")) then some (Json.str "Ada") else none) =
      specResolvedName ⟨[("name", "")], some (.obj [("name", .str "Ada")])⟩) :=
  ⟨(C2_resolution_order ⟨[("name", "")], some (.obj [("name", .str "Ada")])⟩).1
      (some (.str "Ada"))
      (by simp [FunctionApp.resolveName, FunctionApp.getJsonOr, pyTruthy,
        Json.truthy]),
   (C2_resolution_order ⟨[("name", "")], some (.obj [("name", .str "Ada")])⟩).2
      (some (.str "Ada"))
      (by simp [FunctionAppCopy.resolveName, pyTruthy, Json.truthy])⟩

/-- C3: in variant A, a ToDoRecord is handed to the output binding if and
only if a non-empty name was resolved from the request; when no name is
resolved, no record is constructed or persisted. -/
theorem C3_record_iff_name (uuid : String) (req : HttpRequest)
    (resp : HttpResponse) (rec : Option ToDoRecord)
    (h : FunctionApp.HttpExample uuid req = .ok (resp, rec)) :
    rec.isSome = true ↔ ∃ n, specResolvedName req = some n := by
  unfold FunctionApp.HttpExample at h
  cases hr : FunctionApp.resolveName req with
  | error e =>
    rw [hr] at h
    simp at h
  | ok name =>
    rw [hr] at h
    have hs := resolveNameA_spec req name hr
    cases name with
    | none =>
      simp at h
      obtain ⟨_, h2⟩ := h
      subst h2
      simp [pyTruthy] at hs
      simp [← hs]
    | some n =>
      by_cases ht : n.truthy = true
      · simp [ht] at h
        obtain ⟨_, h2⟩ := h
        subst h2
        simp [pyTruthy, ht] at hs
        simp [← hs]
      · simp [ht] at h
        obtain ⟨_, h2⟩ := h
        subst h2
        simp [pyTruthy, ht] at hs
        simp [← hs]

/-- Witness for C3 at the concrete request `?name=Bob`. -/
theorem C3_record_iff_name_witness :
    (some (⟨"id-3", .str "Bob", false, ""⟩ : ToDoRecord)).isSome = true ↔
      ∃ n, specResolvedName ⟨[("name", "Bob")], none⟩ = some n :=
  C3_record_iff_name "id-3" ⟨[("name", "Bob")], none⟩
    ⟨FunctionApp.helloBody "Bob", 200⟩ (some ⟨"id-3", .str "Bob", false, ""⟩)
    (by simp [FunctionApp.HttpExample, FunctionApp.resolveName, pyTruthy,
      Json.truthy, Json.pyStr])

/-- C4: a JSON parse failure of the body is never surfaced: with no usable
query `name` and an unparseable (or absent) body, variant A answers 400
with the please-pass-a-name message and no record, and variant B answers
200 with the generic prompt body, exactly as if no body were present. -/
theorem C4_parse_failure_absorbed (uuid : String) (req : HttpRequest)
    (hq : ∀ s, List.lookup "name" req.params = some s → s = "")
    (hb : req.body = none) :
    FunctionApp.HttpExample uuid req =
      .ok (⟨FunctionApp.pleaseBody, 400⟩, none) ∧
    FunctionAppCopy.HttpExample req = .ok ⟨FunctionAppCopy.promptBody, 200⟩ := by
  rcases hq2 : List.lookup "name" req.params with _ | s
  · constructor
    · unfold FunctionApp.HttpExample FunctionApp.resolveName FunctionApp.getJsonOr
      simp [hq2, hb, pyTruthy]
    · unfold FunctionAppCopy.HttpExample FunctionAppCopy.resolveName
      simp [hq2, hb, pyTruthy]
  · have hs : s = "" := hq s hq2
    subst hs
    constructor
    · unfold FunctionApp.HttpExample FunctionApp.resolveName FunctionApp.getJsonOr
      simp [hq2, hb, pyTruthy, Json.truthy]
    · unfold FunctionAppCopy.HttpExample FunctionAppCopy.resolveName
      simp [hq2, hb, pyTruthy, Json.truthy]

/-- Witness for C4 at the request with no query parameters and an
unparseable body. -/
theorem C4_parse_failure_absorbed_witness :
    FunctionApp.HttpExample "id-4" ⟨[], none⟩ =
      .ok (⟨FunctionApp.pleaseBody, 400⟩, none) ∧
    FunctionAppCopy.HttpExample ⟨[], none⟩ =
      .ok ⟨FunctionAppCopy.promptBody, 200⟩ :=
  C4_parse_failure_absorbed "id-4" ⟨[], none⟩
    (fun s h => by simp at h) rfl

/-- C5: variant B returns status 200 on both branches — the personalized
hello body when a name was resolved and the generic prompt body (status
200, not 400) when no name was resolved. -/
theorem C5_variantB_both_branches_200 (req : HttpRequest) :
    (∀ n, FunctionAppCopy.resolvedName req = .ok (some n) →
        FunctionAppCopy.HttpExample req =
          .ok ⟨FunctionAppCopy.helloBody n.pyStr, 200⟩) ∧
    (FunctionAppCopy.resolvedName req = .ok none →
        FunctionAppCopy.HttpExample req =
          .ok ⟨FunctionAppCopy.promptBody, 200⟩) := by
  cases hr : FunctionAppCopy.resolveName req with
  | error e =>
    constructor
    · intro n hn
      rw [FunctionAppCopy.resolvedName, hr] at hn
      simp [Except.map] at hn
    · intro hn
      rw [FunctionAppCopy.resolvedName, hr] at hn
      simp [Except.map] at hn
  | ok name =>
    have hE : ∀ r, (match FunctionAppCopy.resolveName req with
        | .error e => (.error e : Except Unit HttpResponse)
        | .ok name =>
          match name with
          | some v =>
            if v.truthy then .ok ⟨FunctionAppCopy.helloBody v.pyStr, 200⟩
            else .ok ⟨FunctionAppCopy.promptBody, 200⟩
          | none => .ok ⟨FunctionAppCopy.promptBody, 200⟩) = r →
        FunctionAppCopy.HttpExample req = r := by
      intro r hr2
      rw [FunctionAppCopy.HttpExample, hr2]
    cases name with
    | none =>
      constructor
      · intro n hn
        rw [FunctionAppCopy.resolvedName, hr] at hn
        simp [Except.map, pyTruthy] at hn
      · intro hn
        exact hE _ (by rw [hr])
    | some m =>
      by_cases ht : m.truthy = true
      · constructor
        · intro n hn
          rw [FunctionAppCopy.resolvedName, hr] at hn
          simp [Except.map, pyTruthy, ht] at hn
          subst hn
          exact hE _ (by rw [hr]; simp [ht])
        · intro hn
          rw [FunctionAppCopy.resolvedName, hr] at hn
          simp [Except.map, pyTruthy, ht] at hn
      · constructor
        · intro n hn
          rw [FunctionAppCopy.resolvedName, hr] at hn
          simp [Except.map, pyTruthy, ht] at hn
        · intro hn
          exact hE _ (by rw [hr]; simp [ht])

/-- Witness for C5: both the personalized branch (query `?name=Ada`) and
the generic branch (empty request). -/
theorem C5_variantB_both_branches_200_witness :
    FunctionAppCopy.HttpExample ⟨[("name", "Ada")], none⟩ =
      .ok ⟨FunctionAppCopy.helloBody (Json.str "Ada").pyStr, 200⟩ ∧
    FunctionAppCopy.HttpExample ⟨[], none⟩ =
      .ok ⟨FunctionAppCopy.promptBody, 200⟩ :=
  ⟨(C5_variantB_both_branches_200 ⟨[("name", "Ada")], none⟩).1 (.str "Ada")
      (by simp [FunctionAppCopy.resolvedName, FunctionAppCopy.resolveName,
        Except.map, pyTruthy, Json.truthy]),
   (C5_variantB_both_branches_200 ⟨[], none⟩).2
      (by simp [FunctionAppCopy.resolvedName, FunctionAppCopy.resolveName,
        Except.map, pyTruthy])⟩

/-- C6: despite the different fallbacks on a JSON parse failure, the two
name-resolution procedures are behaviourally equivalent: on every request
they produce the same outcome, both raising, or both resolving the same
non-empty name, or both resolving none. -/
theorem C6_variants_resolve_equally (req : HttpRequest) :
    FunctionApp.resolvedName req = FunctionAppCopy.resolvedName req := by
  rcases req with ⟨params, body⟩
  unfold FunctionApp.resolvedName FunctionAppCopy.resolvedName
    FunctionApp.resolveName FunctionAppCopy.resolveName FunctionApp.getJsonOr
  rcases hq : List.lookup "name" params with _ | s
  · rcases hb : body with _ | j
    · simp [Except.map, hq, hb, pyTruthy]
    · rcases j with _ | b | n | s2 | elems | fields <;> simp [Except.map, hq, hb, pyTruthy]
  · by_cases hs : s = ""
    · subst hs
      rcases hb : body with _ | j
      · simp [Except.map, hq, hb, pyTruthy, Json.truthy]
      · rcases j with _ | b | n | s2 | elems | fields <;>
          simp [Except.map, hq, hb, pyTruthy, Json.truthy]
    · simp [Except.map, hq, pyTruthy, Json.truthy, hs]

/-- C7: every record variant A constructs has exactly the shape: Id the
string form of the fresh UUID, title the resolved name, completed false,
url empty. -/
theorem C7_record_shape (uuid : String) (req : HttpRequest)
    (resp : HttpResponse) (r : ToDoRecord)
    (h : FunctionApp.HttpExample uuid req = .ok (resp, some r)) :
    r.Id = uuid ∧ (∃ n, specResolvedName req = some n ∧ r.title = n) ∧
      r.completed = false ∧ r.url = "" := by
  obtain ⟨n, hr, ht, hresp, hrec⟩ :=
    FunctionApp.HttpExample_ok_some uuid req resp r h
  have hspec := resolveNameA_spec req (some n) hr
  simp [pyTruthy, ht] at hspec
  subst hrec
  exact ⟨rfl, ⟨n, hspec.symm, rfl⟩, rfl, rfl⟩

/-- Witness for C7 at the concrete request `?name=Eve`. -/
theorem C7_record_shape_witness :
    (⟨"id-7", .str "Eve", false, ""⟩ : ToDoRecord).Id = "id-7" ∧
    (∃ n, specResolvedName ⟨[("name", "Eve")], none⟩ = some n ∧
      (⟨"id-7", .str "Eve", false, ""⟩ : ToDoRecord).title = n) ∧
    (⟨"id-7", .str "Eve", false, ""⟩ : ToDoRecord).completed = false ∧
    (⟨"id-7", .str "Eve", false, ""⟩ : ToDoRecord).url = "" :=
  C7_record_shape "id-7" ⟨[("name", "Eve")], none⟩
    ⟨FunctionApp.helloBody "Eve", 200⟩ ⟨"id-7", .str "Eve", false, ""⟩
    (by simp [FunctionApp.HttpExample, FunctionApp.resolveName, pyTruthy,
      Json.truthy, Json.pyStr])

/-- C8: persistence is not deduplicated by name — two invocations on the
same request with distinct fresh UUIDs hand off records with distinct Ids
that agree on title, completed and url. -/
theorem C8_not_deduplicated (u1 u2 : String) (req : HttpRequest)
    (resp1 resp2 : HttpResponse) (r1 r2 : ToDoRecord) (hne : u1 ≠ u2)
    (h1 : FunctionApp.HttpExample u1 req = .ok (resp1, some r1))
    (h2 : FunctionApp.HttpExample u2 req = .ok (resp2, some r2)) :
    r1.Id ≠ r2.Id ∧ r1.title = r2.title ∧ r1.completed = r2.completed ∧
      r1.url = r2.url := by
  obtain ⟨n1, hr1, ht1, _, hrec1⟩ :=
    FunctionApp.HttpExample_ok_some u1 req resp1 r1 h1
  obtain ⟨n2, hr2, ht2, _, hrec2⟩ :=
    FunctionApp.HttpExample_ok_some u2 req resp2 r2 h2
  rw [hr1] at hr2
  injection hr2 with hr2
  injection hr2 with hr2
  subst hr2
  subst hrec1
  subst hrec2
  exact ⟨hne, rfl, rfl, rfl⟩

/-- Witness for C8: the same `?name=World` request twice with two distinct
UUIDs. -/
theorem C8_not_deduplicated_witness :
    (⟨"id-8a", .str "World", false, ""⟩ : ToDoRecord).Id ≠
      (⟨"id-8b", .str "World", false, ""⟩ : ToDoRecord).Id ∧
    (⟨"id-8a", .str "World", false, ""⟩ : ToDoRecord).title =
      (⟨"id-8b", .str "World", false, ""⟩ : ToDoRecord).title ∧
    (⟨"id-8a", .str "World", false, ""⟩ : ToDoRecord).completed =
      (⟨"id-8b", .str "World", false, ""⟩ : ToDoRecord).completed ∧
    (⟨"id-8a", .str "World", false, ""⟩ : ToDoRecord).url =
      (⟨"id-8b", .str "World", false, ""⟩ : ToDoRecord).url :=
  C8_not_deduplicated "id-8a" "id-8b" ⟨[("name", "World")], none⟩
    ⟨FunctionApp.helloBody "World", 200⟩ ⟨FunctionApp.helloBody "World", 200⟩
    ⟨"id-8a", .str "World", false, ""⟩ ⟨"id-8b", .str "World", false, ""⟩
    (by decide)
    (by simp [FunctionApp.HttpExample, FunctionApp.resolveName, pyTruthy,
      Json.truthy, Json.pyStr])
    (by simp [FunctionApp.HttpExample, FunctionApp.resolveName, pyTruthy,
      Json.truthy, Json.pyStr])

/-- C9: on a request with no query `name` and a body that is valid JSON but
not a JSON object (here the number 5), both handlers raise an uncaught
AttributeError instead of returning a response. -/
theorem C9_nonobject_body_raises (uuid : String) :
    FunctionApp.HttpExample uuid ⟨[], some (.num 5)⟩ = .error () ∧
    FunctionAppCopy.HttpExample ⟨[], some (.num 5)⟩ = .error () := by
  constructor
  · unfold FunctionApp.HttpExample FunctionApp.resolveName FunctionApp.getJsonOr
    simp [pyTruthy]
  · unfold FunctionAppCopy.HttpExample FunctionAppCopy.resolveName
    simp [pyTruthy]

/-- C10: neither handler checks that the body-supplied name is a string —
any truthy non-string JSON value under `name` is accepted, formatted into
the 200 greeting body, and in variant A stored as the record title. -/
theorem C10_nonstring_name_accepted (uuid : String) (req : HttpRequest)
    (fields : List (String × Json)) (v : Json)
    (hq : ∀ s, List.lookup "name" req.params = some s → s = "")
    (hb : req.body = some (.obj fields))
    (hl : List.lookup "name" fields = some v)
    (ht : v.truthy = true) (hsv : ∀ s, v ≠ Json.str s) :
    FunctionApp.HttpExample uuid req =
      .ok (⟨FunctionApp.helloBody v.pyStr, 200⟩, some ⟨uuid, v, false, ""⟩) ∧
    FunctionAppCopy.HttpExample req =
      .ok ⟨FunctionAppCopy.helloBody v.pyStr, 200⟩ := by
  have hrA : FunctionApp.resolveName req = .ok (some v) := by
    unfold FunctionApp.resolveName FunctionApp.getJsonOr
    rcases hq2 : List.lookup "name" req.params with _ | s
    · simp [hq2, hb, hl, pyTruthy]
    · have hs : s = "" := hq s hq2
      subst hs
      simp [hq2, hb, hl, pyTruthy, Json.truthy]
  have hrB : FunctionAppCopy.resolveName req = .ok (some v) := by
    unfold FunctionAppCopy.resolveName
    rcases hq2 : List.lookup "name" req.params with _ | s
    · simp [hq2, hb, hl, pyTruthy]
    · have hs : s = "" := hq s hq2
      subst hs
      simp [hq2, hb, hl, pyTruthy, Json.truthy]
  constructor
  · unfold FunctionApp.HttpExample
    rw [hrA]
    simp [ht]
  · unfold FunctionAppCopy.HttpExample
    rw [hrB]
    simp [ht]

/-- Witness for C10: body name is the number 5, accepted and stored by both
variants. -/
theorem C10_nonstring_name_accepted_witness :
    FunctionApp.HttpExample "id-10" ⟨[], some (.obj [("name", .num 5)])⟩ =
      .ok (⟨FunctionApp.helloBody (Json.num 5).pyStr, 200⟩,
        some ⟨"id-10", .num 5, false, ""⟩) ∧
    FunctionAppCopy.HttpExample ⟨[], some (.obj [("name", .num 5)])⟩ =
      .ok ⟨FunctionAppCopy.helloBody (Json.num 5).pyStr, 200⟩ :=
  C10_nonstring_name_accepted "id-10" ⟨[], some (.obj [("name", .num 5)])⟩
    [("name", .num 5)] (.num 5)
    (fun s h => by simp at h) rfl (by simp) rfl
    (fun s h => Json.noConfusion h)
